import Mathlib

/-!
# Verification of the Rudra-GUI-2 live telemetry ingestion pipeline

A shallow embedding of the telemetry core of the repository:

* `serial_preprocessor.py` — `XBeeTelemetryWorker` (`_parse_frame`, `_run_worker`);
* `tabs/logtab.py` — `safe_float`, `SmartThresholdManager.update_and_check`,
  `check_telemetry_thresholds`, `ml_check`, log-store operations;
* `telemetry1.py` — `TelemetryPanel.update_telemetry` redundancy fallback;
* `models/fetch_weather_data.py` — the redundancy-repair loop;
* `dashboard1.py` — `_forward_to_plot_and_cockpit` fan-out dispatch.

Numbers are modelled as exact rationals (`ℚ`).  Python floats are
idealised to the rational denoted by their decimal literal; all the
comparisons appearing in the claims are exact at the values involved,
so no binary-rounding behaviour is relied on.
-/

/-- A Python value as it can occur in a telemetry dictionary:
`None`, a string, or a number (Python `int`/`float` idealised to `ℚ`). -/
inductive PyVal where
  | none : PyVal
  | str : String → PyVal
  | num : ℚ → PyVal
deriving DecidableEq, Repr

/-- A Python dict with string keys (insertion ordered, keys unique). -/
abbrev PyDict := List (String × PyVal)

/-- `d.get(k)` — Python returns `None` when the key is absent. -/
def dget (d : PyDict) (k : String) : PyVal := (d.lookup k).getD PyVal.none

/-- `d.get(k, dflt)`. -/
def dgetD (d : PyDict) (k : String) (dflt : PyVal) : PyVal := (d.lookup k).getD dflt

/-- `k in d` for a Python dict. -/
def hasKey (d : PyDict) (k : String) : Bool := (d.lookup k).isSome

/-- Python truthiness of the values we model: `None`, `''` and `0` are falsy. -/
def truthy : PyVal → Bool
  | .none => false
  | .str s => s ≠ ""
  | .num q => q ≠ 0

/-- Python `a or b` (returns `a` when truthy, else `b`). -/
def pyOr (a b : PyVal) : PyVal := if truthy a then a else b

/-- ASCII lower-casing of one character (`str.lower` on the ASCII strings
this program manipulates). -/
def lowerChar (c : Char) : Char :=
  if 'A' ≤ c && c ≤ 'Z' then Char.ofNat (c.toNat + 32) else c

/-- ASCII upper-casing of one character. -/
def upperChar (c : Char) : Char :=
  if 'a' ≤ c && c ≤ 'z' then Char.ofNat (c.toNat - 32) else c

/-- Python `s.lower()` (ASCII). -/
def strLower (s : String) : String := ⟨s.data.map lowerChar⟩

/-- Python `s.upper()` (ASCII). -/
def strUpper (s : String) : String := ⟨s.data.map upperChar⟩

/-- Python `s.strip()`: drop leading and trailing whitespace. -/
def strStrip (s : String) : String :=
  ⟨((s.data.dropWhile Char.isWhitespace).reverse.dropWhile Char.isWhitespace).reverse⟩

/-- Python `s.split(sep)` on a character list (single-character separator). -/
def splitListOn (sep : Char) : List Char → List (List Char)
  | [] => [[]]
  | c :: rest =>
    if c == sep then [] :: splitListOn sep rest
    else
      match splitListOn sep rest with
      | g :: gs => (c :: g) :: gs
      | [] => [[c]]

/-! ## The numeric-token grammar `[-+]?\d*\.?\d+`

`re.findall`/`re.search` in `_parse_frame` use the pattern
`[-+]?\d*\.?\d+`.  `matchNumAt` reproduces the leftmost
greedy-with-backtracking match of that pattern anchored at the head of a
character list (digits are modelled as ASCII digits). -/

/-- Core of the body match, taking the leading digit run `a` and the rest
`r1` of the input (so the input is `a ++ r1`): after the greedy digit run,
either a `.` followed by at least one digit extends the match, or — with
the backtracking Python's `re` performs — the match is the digit run
alone (which must then be non-empty). -/
def numBodyAssemble (a r1 : List Char) : Option (List Char × List Char) :=
  if a.isEmpty then
    match r1 with
    | '.' :: r2 =>
      if (r2.takeWhile Char.isDigit).isEmpty then Option.none
      else some ('.' :: r2.takeWhile Char.isDigit, r2.dropWhile Char.isDigit)
    | _ => Option.none
  else
    match r1 with
    | '.' :: r2 =>
      if (r2.takeWhile Char.isDigit).isEmpty then some (a, r1)
      else some (a ++ '.' :: r2.takeWhile Char.isDigit, r2.dropWhile Char.isDigit)
    | _ => some (a, r1)

/-- Match `\d*\.?\d+` (greedy, with the backtracking Python's `re`
performs) at the head of `cs`; return the matched token and the rest. -/
def matchNumBody (cs : List Char) : Option (List Char × List Char) :=
  numBodyAssemble (cs.takeWhile Char.isDigit) (cs.dropWhile Char.isDigit)

/-- Match `[-+]?\d*\.?\d+` at the head of `cs`. -/
def matchNumAt : List Char → Option (List Char × List Char)
  | [] => Option.none
  | c :: rest =>
    if c == '+' || c == '-' then
      match matchNumBody rest with
      | some (t, r) => some (c :: t, r)
      | Option.none => Option.none
    else matchNumBody (c :: rest)

/-- One scanning pass of `re.findall(r"[-+]?\d*\.?\d+", ·)`: try a match at
every position, emitting non-overlapping tokens left to right.
`fuel` bounds the recursion (the string length always suffices). -/
def scanAux : Nat → List Char → List (List Char)
  | 0, _ => []
  | _ + 1, [] => []
  | fuel + 1, c :: rest =>
    match matchNumAt (c :: rest) with
    | some (tok, rest') => tok :: scanAux fuel rest'
    | Option.none => scanAux fuel rest

/-- `re.findall(r"[-+]?\d*\.?\d+", line)` on a character list. -/
def scanNums (cs : List Char) : List (List Char) := scanAux cs.length cs

/-- `re.search(pat + r"([-+]?\d*\.?\d+)", ·)`: find the first position where
the literal `pat` occurs immediately followed by a numeric token, and
return the captured token. -/
def searchAux : Nat → List Char → List Char → Option (List Char)
  | 0, _, _ => Option.none
  | _ + 1, _, [] => Option.none
  | fuel + 1, pat, c :: rest =>
    if pat.isPrefixOf (c :: rest) then
      match matchNumAt ((c :: rest).drop pat.length) with
      | some (tok, _) => some tok
      | Option.none => searchAux fuel pat rest
    else searchAux fuel pat rest

/-- `re.search(pat + "(num)", line)` returning the captured numeric token. -/
def searchNum (pat : String) (line : String) : Option (List Char) :=
  searchAux line.data.length pat.data line.data

/-- Numeric value of a digit list. -/
def digitsVal (ds : List Char) : ℕ :=
  ds.foldl (fun n c => 10 * n + (c.toNat - 48)) 0

/-- Value of an (unsigned) numeric token body: `digits`, `digits.digits`
or `.digits`. -/
def ratBody (cs : List Char) : ℚ :=
  let a := cs.takeWhile Char.isDigit
  let r := cs.dropWhile Char.isDigit
  match r with
  | '.' :: b =>
    (digitsVal a : ℚ) +
      (digitsVal (b.takeWhile Char.isDigit) : ℚ) / (10 : ℚ) ^ (b.takeWhile Char.isDigit).length
  | _ => (digitsVal a : ℚ)

/-- Python `float(tok)` for a token matched by `[-+]?\d*\.?\d+`
(idealised to the exact rational the decimal literal denotes). -/
def ratOfTok : List Char → ℚ
  | '+' :: r => ratBody r
  | '-' :: r => - ratBody r
  | cs => ratBody cs

/-- The shape predicate for tokens of `[-+]?\d*\.?\d+`:
`digits`, `digits.digits` or `.digits`, each at least one digit. -/
def isNumBody (t : List Char) : Bool :=
  match t with
  | '.' :: r => !r.isEmpty && r.all Char.isDigit
  | _ =>
    let a := t.takeWhile Char.isDigit
    let r := t.dropWhile Char.isDigit
    !a.isEmpty &&
      (r.isEmpty ||
        (match r with
         | '.' :: b => !b.isEmpty && b.all Char.isDigit
         | _ => false))

/-- A full numeric token: optional sign, then a numeric body. -/
def isNumTok (t : List Char) : Bool :=
  match t with
  | [] => false
  | c :: r => if c == '+' || c == '-' then isNumBody r else isNumBody (c :: r)

/-- Python `float(s)` on a string, restricted to the plain decimal grammar
(sign, digits, one optional dot; surrounding whitespace stripped).
Exponents and the `inf`/`nan` literal forms are outside this model —
no claim depends on them. -/
def pyFloat? (s : String) : Option ℚ :=
  match matchNumAt (strStrip s).data with
  | some (tok, []) => some (ratOfTok tok)
  | _ => Option.none

/-- `safe_float` from `tabs/logtab.py` (lines 54-57):
`None`, `''` and the strings `'nan'`/`'n/a'` (case-insensitive) give `None`;
any other string is converted with `float(·)` and, failing that, the
default is returned; numbers convert to themselves.  (For a number `q`,
`str(q).lower()` is a digit string and never `'nan'`/`'n/a'`, so the
string test is vacuous on the `num` branch; rationals have no NaN.) -/
def safe_float (v : PyVal) (default : ℚ) : Option ℚ :=
  match v with
  | .none => Option.none
  | .str s =>
    if s == "" || strLower s == "nan" || strLower s == "n/a" then Option.none
    else
      match pyFloat? s with
      | some q => some q
      | Option.none => some default
  | .num q => some q

/-! ## Python number formatting (idealised)

`check_telemetry_thresholds` interpolates values and table entries into
f-strings.  Table entries are Python `int`s or `float`s; resolved sensor
values are always `float`s.  `pyFloatRepr` gives the decimal repr of a
float whose value is an exactly-representable short decimal (all the
concrete values the claims evaluate are of this kind); the shortest-repr
behaviour of arbitrary binary floats is idealised to exact decimal
printing. -/

/-- Left-pad a string with `'0'` to length `n`. -/
def padZeros (s : String) (n : Nat) : String :=
  ⟨List.replicate (n - s.length) '0'⟩ ++ s

/-- Decimal repr of a nonnegative rational with terminating decimal
expansion (`k ≤ 40` decimal digits); other denominators fall back to a
fraction form (never reached by the claims). -/
def ratReprNN (q : ℚ) : String :=
  if q.den = 1 then toString q.num ++ ".0"
  else
    match (List.range 41).find? (fun k => ((10 : ℚ) ^ k * q).den = 1) with
    | some k =>
      let m : ℕ := ((10 : ℚ) ^ k * q).num.toNat
      toString (m / 10 ^ k) ++ "." ++ padZeros (toString (m % 10 ^ k)) k
    | Option.none => toString q.num ++ "/" ++ toString q.den

/-- Python `repr`/f-string form of a float (idealised, see `ratReprNN`). -/
def pyFloatRepr (q : ℚ) : String :=
  if q < 0 then "-" ++ ratReprNN (-q) else ratReprNN q

/-- A Python number as stored in `SENSOR_THRESHOLDS`: `int` or `float`
(they compare by value but print differently). -/
inductive PyNum where
  | i : ℤ → PyNum
  | f : ℚ → PyNum
deriving DecidableEq, Repr

/-- Numeric value of a table entry. -/
def PyNum.toQ : PyNum → ℚ
  | .i n => (n : ℚ)
  | .f q => q

/-- f-string form of a table entry (`f"{100}" = "100"`, `f"{2.5}" = "2.5"`). -/
def PyNum.repr : PyNum → String
  | .i n => toString n
  | .f q => pyFloatRepr q

/-! ## `SENSOR_THRESHOLDS` and `check_telemetry_thresholds` (`tabs/logtab.py`) -/

/-- One entry of `SENSOR_THRESHOLDS`: optional `min`, `max`, `critical_min`,
`critical_max` and a unit string. -/
structure ThreshEntry where
  tmin : Option PyNum
  tmax : Option PyNum
  cmin : Option PyNum
  cmax : Option PyNum
  unit : String
deriving DecidableEq, Repr

def THR_TEMP : ThreshEntry := ⟨some (.i (-10)), some (.i 85), Option.none, some (.i 100), "Â°C"⟩
def THR_HUM : ThreshEntry := ⟨some (.i 0), some (.i 100), Option.none, some (.i 100), "%"⟩
def THR_GAS : ThreshEntry := ⟨some (.i 0), some (.i 100), Option.none, some (.i 150), "KÎ©"⟩
def THR_PRES : ThreshEntry := ⟨some (.i 300), some (.i 1100), some (.i 200), some (.i 1200), "hPa"⟩
def THR_ALT : ThreshEntry := ⟨some (.i (-500)), some (.i 50000), Option.none, some (.i 100000), "m"⟩
def THR_VOLT : ThreshEntry := ⟨some (.f 3), some (.f 42), some (.f (5/2)), some (.f 50), "V"⟩
def THR_CURR : ThreshEntry := ⟨some (.i (-1000)), some (.i 10000), Option.none, some (.i 15000), "mA"⟩
def THR_ACC : ThreshEntry := ⟨Option.none, some (.f 50), Option.none, some (.f 100), "m/sÂ²"⟩
def THR_GYRO : ThreshEntry := ⟨Option.none, some (.i 2000), Option.none, some (.i 3000), "Â°/s"⟩
def THR_MAG : ThreshEntry := ⟨some (.i (-1000)), some (.i 1000), Option.none, some (.i 2000), "uT"⟩

/-- A log event `(type, location, message, details)` as produced by
`check_telemetry_thresholds`. -/
abbrev LogEvent := String × String × String × String

/-- The TEMP branch (logtab.py lines 76-85). -/
def checkTemp (d : PyDict) : List LogEvent :=
  if hasKey d "TEMP" || hasKey d "temperature" then
    match safe_float (pyOr (dget d "TEMP") (dget d "temperature")) 0 with
    | some temp =>
      let t := THR_TEMP
      let u := t.unit
      if temp > (t.cmax.getD (.i 100)).toQ then
        [("CRITICAL", "BME680", "Temperature critical: " ++ pyFloatRepr temp ++ u,
          "Exceeded " ++ (t.cmax.getD (.i 100)).repr ++ u)]
      else if temp > (t.tmax.getD (.i 0)).toQ then
        [("WARNING", "BME680", "Temperature high: " ++ pyFloatRepr temp ++ u,
          "Above " ++ (t.tmax.getD (.i 0)).repr ++ u)]
      else if temp < (t.tmin.getD (.i 0)).toQ then
        [("WARNING", "BME680", "Temperature low: " ++ pyFloatRepr temp ++ u,
          "Below " ++ (t.tmin.getD (.i 0)).repr ++ u)]
      else []
    | Option.none => []
  else []

/-- The HUM branch (logtab.py lines 87-92): out-of-range humidity produces a
single ERROR event (never CRITICAL or WARNING). -/
def checkHum (d : PyDict) : List LogEvent :=
  if hasKey d "HUM" || hasKey d "humidity" then
    match safe_float (pyOr (dget d "HUM") (dget d "humidity")) 0 with
    | some hum =>
      let t := THR_HUM
      let u := t.unit
      if hum > (t.tmax.getD (.i 0)).toQ || hum < (t.tmin.getD (.i 0)).toQ then
        [("ERROR", "BME680", "Humidity out of range: " ++ pyFloatRepr hum ++ u,
          "Valid " ++ (t.tmin.getD (.i 0)).repr ++ "-" ++ (t.tmax.getD (.i 0)).repr ++ u)]
      else []
    | Option.none => []
  else []

/-- The PRES branch (logtab.py lines 94-101). -/
def checkPres (d : PyDict) : List LogEvent :=
  if hasKey d "PRES" || hasKey d "pressure" then
    match safe_float (pyOr (dget d "PRES") (dget d "pressure")) 0 with
    | some pres =>
      let t := THR_PRES
      let u := t.unit
      if pres > (t.cmax.getD (.i 1200)).toQ || pres < (t.cmin.getD (.i 200)).toQ then
        [("CRITICAL", "BME680/DPS310", "Pressure critical: " ++ pyFloatRepr pres ++ u,
          "Outside " ++ (t.cmin.getD (.i 200)).repr ++ "-" ++ (t.cmax.getD (.i 1200)).repr ++ u)]
      else if pres > (t.tmax.getD (.i 0)).toQ || pres < (t.tmin.getD (.i 0)).toQ then
        [("WARNING", "BME680/DPS310", "Pressure unusual: " ++ pyFloatRepr pres ++ u,
          "Expected " ++ (t.tmin.getD (.i 0)).repr ++ "-" ++ (t.tmax.getD (.i 0)).repr ++ u)]
      else []
    | Option.none => []
  else []

/-- The VOLT branch (logtab.py lines 103-112). -/
def checkVolt (d : PyDict) : List LogEvent :=
  if hasKey d "VOLT" || hasKey d "voltage" then
    match safe_float (pyOr (dget d "VOLT") (dget d "voltage")) 0 with
    | some volt =>
      let t := THR_VOLT
      let u := t.unit
      if volt < (t.cmin.getD (.f (5/2))).toQ then
        [("CRITICAL", "INA219", "Battery critically low: " ++ pyFloatRepr volt ++ u,
          "Min " ++ (t.cmin.getD (.f (5/2))).repr ++ u)]
      else if volt > (t.cmax.getD (.f 50)).toQ then
        [("CRITICAL", "INA219", "Voltage dangerously high: " ++ pyFloatRepr volt ++ u,
          "Max " ++ (t.cmax.getD (.f 50)).repr ++ u)]
      else if volt < (t.tmin.getD (.i 0)).toQ then
        [("WARNING", "INA219", "Battery low: " ++ pyFloatRepr volt ++ u,
          "Below " ++ (t.tmin.getD (.i 0)).repr ++ u)]
      else []
    | Option.none => []
  else []

/-- The CURR branch (logtab.py lines 114-121). -/
def checkCurr (d : PyDict) : List LogEvent :=
  if hasKey d "CURR" || hasKey d "current" then
    match safe_float (pyOr (dget d "CURR") (dget d "current")) 0 with
    | some curr =>
      let t := THR_CURR
      let u := t.unit
      if curr > (t.cmax.getD (.i 15000)).toQ then
        [("CRITICAL", "INA219", "Current overload: " ++ pyFloatRepr curr ++ u,
          "Exceeds " ++ (t.cmax.getD (.i 15000)).repr ++ u)]
      else if curr > (t.tmax.getD (.i 0)).toQ then
        [("WARNING", "INA219", "High current draw: " ++ pyFloatRepr curr ++ u,
          "Above " ++ (t.tmax.getD (.i 0)).repr ++ u)]
      else []
    | Option.none => []
  else []

/-- The ALT branch (logtab.py lines 123-130): above `critical_max` produces an
ERROR; below `min` a WARNING; between `max` and `critical_max` nothing. -/
def checkAlt (d : PyDict) : List LogEvent :=
  if hasKey d "ALT" || hasKey d "altitude" then
    match safe_float (pyOr (dget d "ALT") (dget d "altitude")) 0 with
    | some alt =>
      let t := THR_ALT
      let u := t.unit
      if alt > (t.cmax.getD (.i 100000)).toQ then
        [("ERROR", "Altitude", "Altitude extremely high: " ++ pyFloatRepr alt ++ u,
          "Exceeds " ++ (t.cmax.getD (.i 100000)).repr ++ u)]
      else if alt < (t.tmin.getD (.i 0)).toQ then
        [("WARNING", "Altitude", "Negative altitude: " ++ pyFloatRepr alt ++ u,
          "Altitude calculation may be incorrect")]
      else []
    | Option.none => []
  else []

/-- `{mag:.2f}` where `mag = sqrt sq` (idealised: two decimals obtained from
an integer square root of the scaled radicand; the claims never inspect
this string). -/
def fmt2Sqrt (sq : ℚ) : String :=
  let r := Nat.sqrt (sq * 10000).floor.toNat
  toString (r / 100) ++ "." ++ padZeros (toString (r % 100)) 2

/-- The ACC branch (logtab.py lines 132-145).  The source compares the
Euclidean magnitude `mag = sqrt (Σ x²)` against the thresholds; since both
sides are nonnegative this is embedded as a comparison of squares, which
keeps the definition inside `ℚ`.  A non-string value is skipped by the
source's `isinstance` guard. -/
def checkAcc (d : PyDict) : List LogEvent :=
  if hasKey d "ACC" || hasKey d "acceleration" then
    match pyOr (dget d "ACC") (dgetD d "acceleration" (.str "0,0,0")) with
    | .str s =>
      let vals := ((splitListOn ',' s.data).map
        (fun x => safe_float (.str ⟨x⟩) 0)).filterMap id
      let magSq := (vals.map (fun x => x * x)).sum
      let t := THR_ACC
      let u := t.unit
      if magSq > ((t.cmax.getD (.f 100)).toQ) ^ 2 then
        [("CRITICAL", "BNO055", "Extreme acceleration: " ++ fmt2Sqrt magSq ++ u,
          "Exceeds " ++ (t.cmax.getD (.f 100)).repr ++ u)]
      else if magSq > ((t.tmax.getD (.i 0)).toQ) ^ 2 then
        [("WARNING", "BNO055", "High acceleration: " ++ fmt2Sqrt magSq ++ u,
          "Above " ++ (t.tmax.getD (.i 0)).repr ++ u)]
      else []
    | _ => []
  else []

/-- The GPS branch (logtab.py lines 147-150).  In Python a non-string GPS
value would raise `AttributeError` on `.strip()`; the model yields no
event in that (never exercised) case. -/
def checkGps (d : PyDict) : List LogEvent :=
  if hasKey d "GPS_RAW" || hasKey d "gps" then
    match pyOr (dget d "GPS_RAW") (dgetD d "gps" (.str "")) with
    | .str s =>
      if strStrip s == "" then
        [("INFO", "GPS", "GPS searching for fix", "No GPS signal acquired yet")]
      else []
    | _ => []
  else []

/-- The final NaN scan (logtab.py lines 152-154). -/
def nanScan (d : PyDict) : List LogEvent :=
  d.filterMap (fun kv =>
    match kv.2 with
    | .str s =>
      if strLower s == "nan" then
        some ("WARNING", "Sensor:" ++ kv.1, "Invalid reading: " ++ kv.1 ++ "=nan",
          "Possible sensor fault")
      else Option.none
    | _ => Option.none)

/-- `check_telemetry_thresholds` (logtab.py lines 73-155): the per-family
branches run in source order and their events are concatenated. -/
def check_telemetry_thresholds (d : PyDict) : List LogEvent :=
  checkTemp d ++ checkHum d ++ checkPres d ++ checkVolt d ++ checkCurr d ++
    checkAlt d ++ checkAcc d ++ checkGps d ++ nanScan d

/-! ## `SmartThresholdManager.update_and_check` (`tabs/logtab.py` lines 59-71) -/

/-- `deque(maxlen = n)` append: drop from the left when full. -/
def pushWin (n : Nat) (buf : List ℚ) (v : ℚ) : List ℚ :=
  let b := buf ++ [v]
  if n < b.length then b.drop (b.length - n) else b

/-- `np.mean` of a list (population mean). -/
def listMean (l : List ℚ) : ℚ := l.sum / l.length

/-- `np.std(l) ^ 2` — the population variance.  `np.std(l) == 0` iff the
variance is `0`, and `x > μ + k·σ` iff `x > μ ∧ (x - μ)² > k²·σ²` (both
sides nonnegative), so the detector is embedded entirely in `ℚ`. -/
def listVar (l : List ℚ) : ℚ := ((l.map (fun x => (x - listMean l) ^ 2)).sum) / l.length

/-- The payload of an anomaly: the value, window mean, window variance and
direction (`true` = above).  The source interpolates value/μ/σ into a
message string with `:.2f`; the payload keeps the exact numbers instead. -/
abbrev Anomaly := ℚ × ℚ × ℚ × Bool

/-- `SmartThresholdManager.update_and_check` for one tracked channel:
append the value to the rolling window (capacity `20`), return no anomaly
while the window holds fewer than `5` samples or has zero variance, and
otherwise flag values more than `sigma_factor = 2.5` standard deviations
from the mean.  Returns the updated window and the optional anomaly.
An untracked key or a `None` value returns the window unchanged. -/
def update_and_check (tracked : Bool) (buf : List ℚ) (value : Option ℚ) :
    List ℚ × Option Anomaly :=
  if !tracked then (buf, Option.none)
  else
    match value with
    | Option.none => (buf, Option.none)
    | some v =>
      let b := pushWin 20 buf v
      if b.length < 5 then (b, Option.none)
      else
        let μ := listMean b
        let σ2 := listVar b
        if σ2 = 0 then (b, Option.none)
        else if v > μ ∧ (v - μ) ^ 2 > (5/2 : ℚ) ^ 2 * σ2 then (b, some (v, μ, σ2, true))
        else if v < μ ∧ (μ - v) ^ 2 > (5/2 : ℚ) ^ 2 * σ2 then (b, some (v, μ, σ2, false))
        else (b, Option.none)

/-! ## `XBeeTelemetryWorker._parse_frame` (`serial_preprocessor.py` lines 55-132) -/

/-- Python dict assignment `row[k] = v`: overwrite in place when the key is
present, else append. -/
def setK (row : List (String × ℚ)) (kv : String × ℚ) : List (String × ℚ) :=
  if row.any (fun p => p.1 == kv.1) then
    row.map (fun p => if p.1 == kv.1 then kv else p)
  else row ++ [kv]

/-- Perform a sequence of dict assignments. -/
def applyInserts (row : List (String × ℚ)) (kvs : List (String × ℚ)) :
    List (String × ℚ) :=
  kvs.foldl setK row

/-- The dict assignments one line of a frame contributes, following the
`if`/`elif` prefix dispatch of `_parse_frame`.  Each branch extracts its
tokens exactly as the source does (`re.findall` for Gyro, `re.search`
with an anchor for the named sub-fields) and assigns only when the
branch's required tokens are all present. -/
def lineInserts (line0 : String) : List (String × ℚ) :=
  let line := strStrip line0
  if line == "" then []
  else if "Gyro:".data.isPrefixOf line.data then
    match scanNums line.data with
    | t0 :: t1 :: t2 :: _ =>
      [("gyro_x", ratOfTok t0), ("gyro_y", ratOfTok t1), ("gyro_z", ratOfTok t2)]
    | _ => []
  else if "BME:".data.isPrefixOf line.data then
    match searchNum "T=" line, searchNum "H=" line, searchNum "P=" line with
    | some t, some h, some p =>
      [("bme_temp", ratOfTok t), ("bme_h", ratOfTok h), ("bme_p", ratOfTok p)]
    | _, _, _ => []
  else if "BMP:".data.isPrefixOf line.data then
    match searchNum "T=" line, searchNum "P=" line, searchNum "Alt=" line with
    | some t, some p, some alt =>
      [("bmp_temp", ratOfTok t), ("bmp_p", ratOfTok p), ("bmp_alt", ratOfTok alt)]
    | _, _, _ => []
  else if "GPS:".data.isPrefixOf line.data then
    (match searchNum "Lat=" line, searchNum "Lon=" line, searchNum "Alt=" line with
     | some la, some lo, some al =>
       [("gps_lat", ratOfTok la), ("gps_lon", ratOfTok lo), ("gps_alt", ratOfTok al)]
     | _, _, _ => []) ++
    (match searchNum "Vel=" line with
     | some ve => [("gps_vel", ratOfTok ve)]
     | Option.none => [])
  else if "Gyro(R):".data.isPrefixOf line.data then
    match scanNums line.data with
    | t0 :: t1 :: t2 :: _ =>
      [("gyro_x_R", ratOfTok t0), ("gyro_y_R", ratOfTok t1), ("gyro_z_R", ratOfTok t2)]
    | _ => []
  else if "BME(R):".data.isPrefixOf line.data then
    match searchNum "T=" line, searchNum "H=" line, searchNum "P=" line with
    | some t, some h, some p =>
      [("bme_temp_R", ratOfTok t), ("bme_h_R", ratOfTok h), ("bme_p_R", ratOfTok p)]
    | _, _, _ => []
  else if "BMP(R):".data.isPrefixOf line.data then
    match searchNum "T=" line, searchNum "P=" line, searchNum "Alt=" line with
    | some t, some p, some alt =>
      [("bmp_temp_R", ratOfTok t), ("bmp_p_R", ratOfTok p), ("bmp_alt_R", ratOfTok alt)]
    | _, _, _ => []
  else if "GPS(R):".data.isPrefixOf line.data then
    match searchNum "Lat=" line, searchNum "Lon=" line, searchNum "Alt=" line with
    | some la, some lo, some al =>
      [("gps_lat_R", ratOfTok la), ("gps_lon_R", ratOfTok lo), ("gps_alt_R", ratOfTok al)]
    | _, _, _ => []
  else []

/-- `_parse_frame(raw_lines)`: fold every line's assignments into an
initially empty record. -/
def parse_frame (lines : List String) : List (String × ℚ) :=
  lines.foldl (fun row l => applyInserts row (lineInserts l)) []

/-! ## `XBeeTelemetryWorker._run_worker` (`serial_preprocessor.py` lines 137-178)

The serial device is abstracted as a trace: the outcome of the `open`
call, then one `(run-flag value, read outcome)` pair per iteration of the
`while self._run_flag` loop — the flag value is the one observed by the
loop condition of that iteration (so `stop()` is the appearance of
`false`), and the read outcome is what `readline` produces.  An exhausted
trace models the flag turning false.  A `thrErr` outcome stands for an
unexpected exception thrown by the body outside the inner `try` (caught
by the outer `except`). -/

/-- Outcome of one `readline` call (or of the surrounding body). -/
inductive ReadOutcome where
  | data : String → ReadOutcome
  | empty : ReadOutcome
  | readErr : String → ReadOutcome
  | thrErr : String → ReadOutcome
deriving DecidableEq, Repr

/-- Outcome of `serial.Serial(port, baud, timeout=1)`. -/
inductive OpenOutcome where
  | ok : OpenOutcome
  | fail : String → OpenOutcome
deriving DecidableEq, Repr

/-- The structured reason carried by a `connection_lost` signal. -/
inductive Reason where
  | openFail : String → Reason
  | readErr : String → Reason
  | threadErr : String → Reason
  | portClosed : Reason
deriving DecidableEq, Repr

/-- The reason string the source interpolates into the signal payload. -/
def reasonString : Reason → String
  | .openFail e => "OPEN FAIL: " ++ e
  | .readErr e => "READ ERR: " ++ e
  | .threadErr e => "THREAD ERR: " ++ e
  | .portClosed => "PORT CLOSED"

/-- An emitted Qt signal of the worker. -/
inductive WEvent where
  | connected : String → WEvent
  | connLost : Reason → WEvent
  | row : List (String × ℚ) → WEvent
deriving DecidableEq, Repr

/-- The sentinel phrase terminating a frame. -/
def sentinel : String := "Data transmitted via XBee"

/-- Python `needle in hay` for strings: contiguous-subsequence test. -/
def containsSeq (needle : List Char) : List Char → Bool
  | [] => needle.isEmpty
  | c :: rest => needle.isPrefixOf (c :: rest) || containsSeq needle rest

/-- The read loop body (lines 149-167): decode-and-strip each line, emit a
parsed frame at a sentinel line when the buffer is non-empty and the
parsed record is non-empty, drop `---` separator lines, buffer the rest;
a read error or an unexpected exception emits its `connection_lost` and
leaves the loop. -/
def loopGo : List (Bool × ReadOutcome) → List String → List WEvent
  | [], _ => []
  | (flag, rd) :: rest, buf =>
    if !flag then []
    else
      match rd with
      | .empty => loopGo rest buf
      | .readErr e => [.connLost (.readErr e)]
      | .thrErr e => [.connLost (.threadErr e)]
      | .data s =>
        let line := strStrip s
        if containsSeq sentinel.data line.data then
          (if buf.isEmpty then []
           else
             let parsed := parse_frame buf
             if parsed.isEmpty then [] else [WEvent.row parsed]) ++ loopGo rest []
        else if "---".data.isPrefixOf line.data then loopGo rest buf
        else loopGo rest (buf ++ [line])

/-- `_run_worker`: returns the emitted events and the number of times the
device handle is closed by the worker's own cleanup (`finally` block).
An open failure emits `OPEN FAIL` and returns before the `try`/`finally`
is entered; a successful open reaches the `finally` on every exit of the
loop, closing the still-open handle once and emitting `PORT CLOSED`. -/
def runWorker (port : String) (o : OpenOutcome) (iters : List (Bool × ReadOutcome)) :
    List WEvent × Nat :=
  match o with
  | .fail e => ([.connLost (.openFail e)], 0)
  | .ok => ([WEvent.connected port] ++ loopGo iters [] ++ [.connLost .portClosed], 1)

/-- The records carried by `rowReady` emissions, in order. -/
def rowsOf (evs : List WEvent) : List (List (String × ℚ)) :=
  evs.filterMap (fun e => match e with | .row r => some r | _ => Option.none)

/-! ## Fan-out dispatch (`dashboard1.py` `_forward_to_plot_and_cockpit`, lines 245-258)

One record is handed to the subscribers in a fixed order inside a single
`try`; `except Exception: pass` swallows whatever escapes.  A subscriber
is abstracted by whether its update call raises. -/

/-- A subscriber: either handles the record normally or always raises. -/
inductive SubBehavior where
  | ok : SubBehavior
  | throws : SubBehavior
deriving DecidableEq, Repr

/-- The sequential dispatch inside the `try` block: invoke subscribers in
order; the first one that raises aborts the remaining calls.  Returns the
indices of the subscribers that were invoked with the record, and whether
an exception escaped the sequence. -/
def dispatchSeq : List SubBehavior → List Nat × Bool
  | [] => ([], false)
  | .ok :: rest =>
    let (d, e) := dispatchSeq rest
    (0 :: d.map (· + 1), e)
  | .throws :: _ => ([0], true)

/-- `_forward_to_plot_and_cockpit`: the whole dispatch sequence runs inside
one `try`/`except Exception: pass`, so an exception never escapes to the
caller (second component `false` = the producer is not stopped). -/
def forwardRow (subs : List SubBehavior) : List Nat × Bool :=
  ((dispatchSeq subs).1, false)

/-! ## The persisted log store (`tabs/logtab.py`)

The CSV file is modelled as `Option (List (List String))`: `Option.none`
is an absent file, otherwise the ordered list of rows. -/

/-- The fixed header row of `mission_logs.csv`. -/
def headerRow : List String :=
  ["Time", "Type", "Location", "Message", "Details", "ML_Flag", "ML_Details"]

/-- `ml_check` (logtab.py lines 33-39). -/
def ml_check (logType msg details : String) : Bool × String :=
  let keywords := ["anomaly", "unexpected", "fail", "overflow", "exception", "nan",
    "reset", "critical", "traceback", "syntaxerror"]
  let msgLower := strLower msg ++ strLower details
  if strUpper logType == "CRITICAL" then (true, "Critical error detected")
  else
    match keywords.find? (fun kw => containsSeq kw.data msgLower.data) with
    | some kw => (true, "Keyword " ++ "'" ++ kw ++ "'" ++ " detected")
    | Option.none => (false, "")

/-- `ensure_logfile` (lines 41-44): create the file with just the header
when absent. -/
def ensure_logfile (st : Option (List (List String))) : Option (List (List String)) :=
  match st with
  | Option.none => some [headerRow]
  | some f => some f

/-- `save_log_to_file` (lines 46-49): ensure the file exists, then append
one row. -/
def save_log_to_file (st : Option (List (List String))) (row : List String) :
    Option (List (List String)) :=
  match ensure_logfile st with
  | some f => some (f ++ [row])
  | Option.none => Option.none

/-- The persisted row `add_log` builds (lines 345-351): timestamp,
upper-cased type, location, message, details (defaulting to the message),
the ML flag as `int(flag)`, and the ML details. -/
def addLogRow (ts logType location msg : String) (details : Option String) :
    List String :=
  let det := match details with
    | some d => if d == "" then msg else d
    | Option.none => msg
  let ml := ml_check logType msg det
  [ts, strUpper logType, location, msg, det, if ml.1 then "1" else "0", ml.2]

/-- The effect of `add_log` on the persisted store. -/
def add_log (st : Option (List (List String))) (ts logType location msg : String)
    (details : Option String) : Option (List (List String)) :=
  save_log_to_file st (addLogRow ts logType location msg details)

/-- `clear_logs` (lines 355-364): truncate the file to just the header row,
then `add_log` an INFO "Logs cleared" event (which appends one more row).
The prior contents are irrelevant (`open(..., "w")` truncates). -/
def clear_logs (st : Option (List (List String))) (ts : String) :
    Option (List (List String)) :=
  let st1 : Option (List (List String)) :=
    match ensure_logfile st with
    | _ => some [headerRow]
  add_log st1 ts "INFO" "LogTab" "Logs cleared"
    (some "All previous logs have been removed")

/-! ## The redundancy resolvers -/

/-- `TelemetryPanel.update_telemetry` value resolution (`telemetry1.py`
lines 149-153): the fallback `_R` value is used only when the primary is
`None` or one of the strings `""`, `"-"`, `"nan"`, and the fallback is
present; otherwise — including a primary equal to the number `0` — the
primary value stands. -/
def resolveDisplayValue (v vR : PyVal) : PyVal :=
  if (v = PyVal.none ∨ v = PyVal.str "" ∨ v = PyVal.str "-" ∨ v = PyVal.str "nan")
      ∧ vR ≠ PyVal.none then vR
  else v

/-- The redundancy-repair loop of `models/fetch_weather_data.py` (lines
100-108): `prim.where((prim != 0) & (~prim.isna()), red)` per cell —
keep the primary where it is nonzero and not NaN, else substitute the
redundant value.  A cell is `Option ℚ` with `Option.none` for NaN/absent. -/
def redundancyRepair (prim red : Option ℚ) : Option ℚ :=
  match prim with
  | Option.none => red
  | some p => if p ≠ 0 then some p else red

/-! ## Helper lemmas about `takeWhile`/`dropWhile` and the token grammar -/

theorem all_takeWhile (p : Char → Bool) (l : List Char) :
    (l.takeWhile p).all p = true := by
  induction l with
  | nil => rfl
  | cons c r ih =>
    by_cases h : p c
    · simp [List.takeWhile, h, ih]
    · simp [List.takeWhile, h]

theorem takeWhile_of_all (p : Char → Bool) (l : List Char) (h : l.all p = true) :
    l.takeWhile p = l := by
  induction l with
  | nil => rfl
  | cons c r ih =>
    simp only [List.all_cons, Bool.and_eq_true] at h
    simp [List.takeWhile, h.1, ih h.2]

theorem dropWhile_of_all (p : Char → Bool) (l : List Char) (h : l.all p = true) :
    l.dropWhile p = [] := by
  induction l with
  | nil => rfl
  | cons c r ih =>
    simp only [List.all_cons, Bool.and_eq_true] at h
    simp [List.dropWhile, h.1, ih h.2]

theorem takeWhile_append_stop (p : Char → Bool) (a : List Char) (x : Char)
    (r : List Char) (ha : a.all p = true) (hx : p x = false) :
    (a ++ x :: r).takeWhile p = a ∧ (a ++ x :: r).dropWhile p = x :: r := by
  induction a with
  | nil => simp [List.takeWhile, List.dropWhile, hx]
  | cons c a' ih =>
    simp only [List.all_cons, Bool.and_eq_true] at ha
    have h2 := ih ha.2
    simp [List.takeWhile, List.dropWhile, ha.1, h2.1, h2.2]

theorem isNumBody_digits (l : List Char) (h0 : l ≠ []) (h : l.all Char.isDigit = true) :
    isNumBody l = true := by
  match l, h0 with
  | c :: r, _ =>
    have hc : c.isDigit = true := by
      rw [List.all_cons, Bool.and_eq_true] at h
      exact h.1
    unfold isNumBody
    split
    · rename_i r1 heq
      injection heq with h1 _
      rw [h1] at hc
      exact absurd hc (by decide)
    · simp only [takeWhile_of_all _ _ h, dropWhile_of_all _ _ h]
      simp

theorem isNumBody_dd (a b : List Char) (ha0 : a ≠ []) (ha : a.all Char.isDigit = true)
    (hb0 : b ≠ []) (hb : b.all Char.isDigit = true) :
    isNumBody (a ++ '.' :: b) = true := by
  obtain ⟨hta, htb⟩ := takeWhile_append_stop Char.isDigit a '.' b ha (by decide)
  match a, ha0 with
  | c :: a', _ =>
    have hc : c.isDigit = true := by
      rw [List.all_cons, Bool.and_eq_true] at ha
      exact ha.1
    unfold isNumBody
    split
    · rename_i r1 heq
      rw [List.cons_append] at heq
      injection heq with h1 _
      rw [h1] at hc
      exact absurd hc (by decide)
    · rw [hta, htb]
      simp [hb0, hb]

theorem numBodyAssemble_sound (a r1 t r : List Char) (ha : a.all Char.isDigit = true)
    (h : numBodyAssemble a r1 = some (t, r)) :
    a ++ r1 = t ++ r ∧ isNumBody t = true := by
  unfold numBodyAssemble at h
  split_ifs at h with he
  · -- `a` empty
    have ha0 : a = [] := by rwa [List.isEmpty_iff] at he
    subst ha0
    split at h
    · rename_i r2
      split_ifs at h with hb
      have hb' : List.takeWhile Char.isDigit r2 ≠ [] := by
        rwa [List.isEmpty_iff] at hb
      rw [Option.some.injEq, Prod.mk.injEq] at h
      obtain ⟨h1, h2⟩ := h
      subst h1; subst h2
      refine ⟨?_, ?_⟩
      · rw [List.nil_append, List.cons_append,
          List.takeWhile_append_dropWhile Char.isDigit r2]
      · simp only [isNumBody]
        simp [hb', all_takeWhile]
    · exact absurd h (by simp)
  · -- `a` non-empty
    have ha0 : a ≠ [] := by rwa [List.isEmpty_iff] at he
    split at h
    · rename_i r2
      split_ifs at h with hb
      · rw [Option.some.injEq, Prod.mk.injEq] at h
        obtain ⟨h1, h2⟩ := h
        subst h1; subst h2
        exact ⟨rfl, isNumBody_digits _ ha0 ha⟩
      · have hb' : List.takeWhile Char.isDigit r2 ≠ [] := by
          rwa [List.isEmpty_iff] at hb
        rw [Option.some.injEq, Prod.mk.injEq] at h
        obtain ⟨h1, h2⟩ := h
        subst h1; subst h2
        refine ⟨?_, ?_⟩
        · rw [List.append_assoc, List.cons_append,
            List.takeWhile_append_dropWhile Char.isDigit r2]
        · exact isNumBody_dd _ _ ha0 ha hb' (all_takeWhile _ _)
    · rw [Option.some.injEq, Prod.mk.injEq] at h
      obtain ⟨h1, h2⟩ := h
      subst h1; subst h2
      exact ⟨rfl, isNumBody_digits _ ha0 ha⟩

theorem matchNumBody_sound (cs t r : List Char) (h : matchNumBody cs = some (t, r)) :
    cs = t ++ r ∧ isNumBody t = true := by
  obtain ⟨h1, h2⟩ := numBodyAssemble_sound _ _ t r (all_takeWhile _ _) h
  refine ⟨?_, h2⟩
  rw [← List.takeWhile_append_dropWhile Char.isDigit cs, h1]

theorem isNumBody_ne_nil (h : isNumBody ([] : List Char) = true) : False := by
  simp [isNumBody] at h

theorem matchNumAt_sound (cs t r : List Char) (h : matchNumAt cs = some (t, r)) :
    cs = t ++ r ∧ isNumTok t = true := by
  match cs with
  | [] => exact absurd h (by simp [matchNumAt])
  | c :: rest =>
    rw [matchNumAt] at h
    split_ifs at h with hsign
    · -- leading sign
      split at h
      · rename_i t' r' heq
        rw [Option.some.injEq, Prod.mk.injEq] at h
        obtain ⟨h1, h2⟩ := h
        subst h1; subst h2
        obtain ⟨hb1, hb2⟩ := matchNumBody_sound rest t' r' heq
        constructor
        · rw [List.cons_append, ← hb1]
        · simp only [isNumTok, hsign, if_true]
          exact hb2
      · exact absurd h (by simp)
    · obtain ⟨hb1, hb2⟩ := matchNumBody_sound (c :: rest) t r h
      refine ⟨hb1, ?_⟩
      match t, hb2 with
      | [], hb2 => exact absurd (isNumBody_ne_nil hb2) (fun f => f)
      | c' :: t', hb2 =>
        have hc' : c' = c := by
          rw [List.cons_append] at hb1
          injection hb1 with h1 _
          exact h1.symm
        subst hc'
        simp only [isNumTok, hsign, if_false]
        exact hb2

/-- Every token `re.findall` produces is a contiguous piece of the input
with the numeric-token shape. -/
theorem scanAux_sound (fuel : Nat) (cs t : List Char) (h : t ∈ scanAux fuel cs) :
    (∃ pre suf, cs = pre ++ t ++ suf) ∧ isNumTok t = true := by
  induction fuel generalizing cs with
  | zero => exact absurd h (by simp [scanAux])
  | succ fuel ih =>
    match cs with
    | [] => exact absurd h (by simp [scanAux])
    | c :: rest =>
      rw [scanAux] at h
      split at h
      · rename_i tok rest' heq
        obtain ⟨hm1, hm2⟩ := matchNumAt_sound (c :: rest) tok rest' heq
        rcases List.mem_cons.mp h with h0 | h0
        · subst h0
          exact ⟨⟨[], rest', by rw [hm1]; rfl⟩, hm2⟩
        · obtain ⟨⟨pre, suf, hps⟩, hshape⟩ := ih rest' h0
          refine ⟨⟨tok ++ pre, suf, ?_⟩, hshape⟩
          rw [hm1, hps]
          simp [List.append_assoc]
      · obtain ⟨⟨pre, suf, hps⟩, hshape⟩ := ih rest h
        exact ⟨⟨c :: pre, suf, by rw [List.cons_append, hps]; rfl⟩, hshape⟩

/-- The token `re.search(pat + "(num)", ·)` captures is a contiguous piece
of the input with the numeric-token shape. -/
theorem isPrefixOf_exists : ∀ (pat s : List Char), pat.isPrefixOf s = true →
    ∃ tail, pat ++ tail = s
  | [], s, _ => ⟨s, rfl⟩
  | c :: cs, [], h => by simp [List.isPrefixOf] at h
  | c :: cs, c' :: s', h => by
    simp only [List.isPrefixOf, Bool.and_eq_true, beq_iff_eq] at h
    obtain ⟨rfl, h2⟩ := h
    obtain ⟨tail, ht⟩ := isPrefixOf_exists cs s' h2
    exact ⟨tail, by rw [List.cons_append, ht]⟩

theorem searchAux_sound (fuel : Nat) (pat cs t : List Char)
    (h : searchAux fuel pat cs = some t) :
    (∃ pre suf, cs = pre ++ t ++ suf) ∧ isNumTok t = true := by
  induction fuel generalizing cs with
  | zero => exact absurd h (by simp [searchAux])
  | succ fuel ih =>
    match cs with
    | [] => exact absurd h (by simp [searchAux])
    | c :: rest =>
      rw [searchAux] at h
      split_ifs at h with hpre
      · obtain ⟨tail, htail⟩ := isPrefixOf_exists pat (c :: rest) hpre
        split at h
        · rename_i tok rest' heq
          rw [Option.some.injEq] at h
          subst h
          rw [← htail, List.drop_left pat tail] at heq
          obtain ⟨hm1, hm2⟩ := matchNumAt_sound tail tok rest' heq
          refine ⟨⟨pat, rest', ?_⟩, hm2⟩
          rw [← htail, hm1]
          simp [List.append_assoc]
        · obtain ⟨⟨pre, suf, hps⟩, hshape⟩ := ih rest h
          exact ⟨⟨c :: pre, suf, by rw [List.cons_append, hps]; rfl⟩, hshape⟩
      · obtain ⟨⟨pre, suf, hps⟩, hshape⟩ := ih rest h
        exact ⟨⟨c :: pre, suf, by rw [List.cons_append, hps]; rfl⟩, hshape⟩

/-! ## Key-set and provenance of `_parse_frame` -/

/-- The channel names `_parse_frame` can produce: the 13 primary names and
the 12 redundant `_R` names (the redundant GPS line carries no `Vel=`
field, so `gps_vel_R` is never produced). -/
def channelNames : List String :=
  ["gyro_x", "gyro_y", "gyro_z", "bme_temp", "bme_h", "bme_p",
   "bmp_temp", "bmp_p", "bmp_alt", "gps_lat", "gps_lon", "gps_alt", "gps_vel",
   "gyro_x_R", "gyro_y_R", "gyro_z_R", "bme_temp_R", "bme_h_R", "bme_p_R",
   "bmp_temp_R", "bmp_p_R", "bmp_alt_R", "gps_lat_R", "gps_lon_R", "gps_alt_R"]

/-- `q` is the float of a numeric token occurring contiguously in the
stripped line `l`. -/
def TokenProv (l : String) (q : ℚ) : Prop :=
  ∃ tok : List Char, (∃ pre suf, (strStrip l).data = pre ++ tok ++ suf) ∧
    isNumTok tok = true ∧ q = ratOfTok tok

theorem mem_setK (row : List (String × ℚ)) (kv q : String × ℚ)
    (h : q ∈ setK row kv) : q = kv ∨ q ∈ row := by
  unfold setK at h
  split_ifs at h with hc
  · obtain ⟨p, hp, hpq⟩ := List.mem_map.mp h
    by_cases hk : p.1 == kv.1
    · rw [if_pos hk] at hpq
      exact Or.inl hpq.symm
    · rw [if_neg hk] at hpq
      exact Or.inr (hpq ▸ hp)
  · rcases List.mem_append.mp h with h0 | h0
    · exact Or.inr h0
    · exact Or.inl (List.mem_singleton.mp h0)

theorem mem_applyInserts (row kvs : List (String × ℚ)) (q : String × ℚ)
    (h : q ∈ applyInserts row kvs) : q ∈ row ∨ q ∈ kvs := by
  induction kvs generalizing row with
  | nil => exact Or.inl h
  | cons kv rest ih =>
    rcases ih (setK row kv) h with h0 | h0
    · rcases mem_setK row kv q h0 with h1 | h1
      · exact Or.inr (by simp [h1])
      · exact Or.inl h1
    · exact Or.inr (List.mem_cons_of_mem _ h0)

theorem scanNums_prov (l : String) (t : List Char) (h : t ∈ scanNums (strStrip l).data) :
    ∀ q, q = ratOfTok t → TokenProv l q := by
  intro q hq
  obtain ⟨hps, hshape⟩ := scanAux_sound _ _ t h
  exact ⟨t, hps, hshape, hq⟩

theorem searchNum_prov (pat : String) (l : String) (t : List Char)
    (h : searchNum pat (strStrip l) = some t) : ∀ q, q = ratOfTok t → TokenProv l q := by
  intro q hq
  obtain ⟨hps, hshape⟩ := searchAux_sound _ _ _ t h
  exact ⟨t, hps, hshape, hq⟩

theorem lineInserts_sound (l : String) (kv : String × ℚ) (h : kv ∈ lineInserts l) :
    kv.1 ∈ channelNames ∧ TokenProv l kv.2 := by
  simp only [lineInserts] at h
  split_ifs at h with h0 h1 h2 h3 h4 h5 h6 h7 h8
  · exact absurd h (by simp)
  · -- Gyro:
    split at h
    · rename_i t0 t1 t2 rest heq
      have hm : ∀ t, t ∈ [t0, t1, t2] → t ∈ scanNums (strStrip l).data := by
        intro t ht
        rw [heq]
        simp only [List.mem_cons, List.mem_singleton] at ht
        rcases ht with rfl | rfl | rfl | hf
        · exact List.mem_cons_self _ _
        · exact List.mem_cons_of_mem _ (List.mem_cons_self _ _)
        · exact List.mem_cons_of_mem _ (List.mem_cons_of_mem _ (List.mem_cons_self _ _))
        · exact absurd hf (by simp)
      simp only [List.mem_cons, List.not_mem_nil, or_false] at h
      rcases h with rfl | rfl | rfl
      · exact ⟨by simp [channelNames], scanNums_prov l t0 (hm t0 (by simp)) _ rfl⟩
      · exact ⟨by simp [channelNames], scanNums_prov l t1 (hm t1 (by simp)) _ rfl⟩
      · exact ⟨by simp [channelNames], scanNums_prov l t2 (hm t2 (by simp)) _ rfl⟩
    · exact absurd h (by simp)
  · -- BME:
    split at h
    · rename_i t hh p heqT heqH heqP
      simp only [List.mem_cons, List.not_mem_nil, or_false] at h
      rcases h with rfl | rfl | rfl
      · exact ⟨by simp [channelNames], searchNum_prov "T=" l t heqT _ rfl⟩
      · exact ⟨by simp [channelNames], searchNum_prov "H=" l hh heqH _ rfl⟩
      · exact ⟨by simp [channelNames], searchNum_prov "P=" l p heqP _ rfl⟩
    · exact absurd h (by simp)
  · -- BMP:
    split at h
    · rename_i t p alt heqT heqP heqA
      simp only [List.mem_cons, List.not_mem_nil, or_false] at h
      rcases h with rfl | rfl | rfl
      · exact ⟨by simp [channelNames], searchNum_prov "T=" l t heqT _ rfl⟩
      · exact ⟨by simp [channelNames], searchNum_prov "P=" l p heqP _ rfl⟩
      · exact ⟨by simp [channelNames], searchNum_prov "Alt=" l alt heqA _ rfl⟩
    · exact absurd h (by simp)
  · -- GPS:
    rcases List.mem_append.mp h with hA | hB
    · split at hA
      · rename_i la lo al heqLa heqLo heqAl
        simp only [List.mem_cons, List.not_mem_nil, or_false] at hA
        rcases hA with rfl | rfl | rfl
        · exact ⟨by simp [channelNames], searchNum_prov "Lat=" l la heqLa _ rfl⟩
        · exact ⟨by simp [channelNames], searchNum_prov "Lon=" l lo heqLo _ rfl⟩
        · exact ⟨by simp [channelNames], searchNum_prov "Alt=" l al heqAl _ rfl⟩
      · exact absurd hA (by simp)
    · split at hB
      · rename_i ve heqVe
        simp only [List.mem_singleton] at hB
        subst hB
        exact ⟨by simp [channelNames], searchNum_prov "Vel=" l ve heqVe _ rfl⟩
      · exact absurd hB (by simp)
  · -- Gyro(R):
    split at h
    · rename_i t0 t1 t2 rest heq
      have hm : ∀ t, t ∈ [t0, t1, t2] → t ∈ scanNums (strStrip l).data := by
        intro t ht
        rw [heq]
        simp only [List.mem_cons, List.mem_singleton] at ht
        rcases ht with rfl | rfl | rfl | hf
        · exact List.mem_cons_self _ _
        · exact List.mem_cons_of_mem _ (List.mem_cons_self _ _)
        · exact List.mem_cons_of_mem _ (List.mem_cons_of_mem _ (List.mem_cons_self _ _))
        · exact absurd hf (by simp)
      simp only [List.mem_cons, List.not_mem_nil, or_false] at h
      rcases h with rfl | rfl | rfl
      · exact ⟨by simp [channelNames], scanNums_prov l t0 (hm t0 (by simp)) _ rfl⟩
      · exact ⟨by simp [channelNames], scanNums_prov l t1 (hm t1 (by simp)) _ rfl⟩
      · exact ⟨by simp [channelNames], scanNums_prov l t2 (hm t2 (by simp)) _ rfl⟩
    · exact absurd h (by simp)
  · -- BME(R):
    split at h
    · rename_i t hh p heqT heqH heqP
      simp only [List.mem_cons, List.not_mem_nil, or_false] at h
      rcases h with rfl | rfl | rfl
      · exact ⟨by simp [channelNames], searchNum_prov "T=" l t heqT _ rfl⟩
      · exact ⟨by simp [channelNames], searchNum_prov "H=" l hh heqH _ rfl⟩
      · exact ⟨by simp [channelNames], searchNum_prov "P=" l p heqP _ rfl⟩
    · exact absurd h (by simp)
  · -- BMP(R):
    split at h
    · rename_i t p alt heqT heqP heqA
      simp only [List.mem_cons, List.not_mem_nil, or_false] at h
      rcases h with rfl | rfl | rfl
      · exact ⟨by simp [channelNames], searchNum_prov "T=" l t heqT _ rfl⟩
      · exact ⟨by simp [channelNames], searchNum_prov "P=" l p heqP _ rfl⟩
      · exact ⟨by simp [channelNames], searchNum_prov "Alt=" l alt heqA _ rfl⟩
    · exact absurd h (by simp)
  · -- GPS(R):
    split at h
    · rename_i la lo al heqLa heqLo heqAl
      simp only [List.mem_cons, List.not_mem_nil, or_false] at h
      rcases h with rfl | rfl | rfl
      · exact ⟨by simp [channelNames], searchNum_prov "Lat=" l la heqLa _ rfl⟩
      · exact ⟨by simp [channelNames], searchNum_prov "Lon=" l lo heqLo _ rfl⟩
      · exact ⟨by simp [channelNames], searchNum_prov "Alt=" l al heqAl _ rfl⟩
    · exact absurd h (by simp)
  · exact absurd h (by simp)

theorem parse_frame_fold (lines : List String) (row : List (String × ℚ))
    (kv : String × ℚ)
    (h : kv ∈ lines.foldl (fun row l => applyInserts row (lineInserts l)) row) :
    kv ∈ row ∨ ∃ l ∈ lines, kv ∈ lineInserts l := by
  induction lines generalizing row with
  | nil => exact Or.inl h
  | cons l rest ih =>
    rcases ih (applyInserts row (lineInserts l)) h with h0 | h0
    · rcases mem_applyInserts _ _ _ h0 with h1 | h1
      · exact Or.inl h1
      · exact Or.inr ⟨l, by simp, h1⟩
    · obtain ⟨l', hl', hkv⟩ := h0
      exact Or.inr ⟨l', List.mem_cons_of_mem _ hl', hkv⟩

/-- **C10.**  For every list of input lines, frame parsing is total (the
embedding `parse_frame` is a Lean function, mirroring that the Python code
raises no exception), every key of the produced record is one of the fixed
channel names, and every value is the float of a numeric token (matching
`[-+]?\d*\.?\d+`) occurring contiguously in one of the (stripped) input
lines. -/
theorem parse_frame_keys_and_provenance (lines : List String) :
    ∀ kv ∈ parse_frame lines,
      kv.1 ∈ channelNames ∧ ∃ l ∈ lines, TokenProv l kv.2 := by
  intro kv h
  rcases parse_frame_fold lines [] kv h with h0 | h0
  · exact absurd h0 (by simp)
  · obtain ⟨l, hl, hkv⟩ := h0
    obtain ⟨hname, hprov⟩ := lineInserts_sound l kv hkv
    exact ⟨hname, l, hl, hprov⟩

/-- Witness for C10 at a concrete frame. -/
theorem parse_frame_keys_and_provenance_witness :
    (("bme_temp", (950 : ℚ)) ∈ parse_frame ["BME: T=950 H=45 P=1000"]) ∧
    ("bme_temp" ∈ channelNames ∧
      ∃ l ∈ ["BME: T=950 H=45 P=1000"], TokenProv l ((("bme_temp", (950 : ℚ))).2)) :=
  ⟨by decide,
   parse_frame_keys_and_provenance ["BME: T=950 H=45 P=1000"]
     ("bme_temp", (950 : ℚ)) (by decide)⟩

/-! ## C9: `safe_float` -/

/-- **C9.**  `safe_float` returns `None` exactly when its input is `None`,
the empty string, or a string whose lower-casing is `"nan"` or `"n/a"`;
for a string input outside those cases that does not convert to a float,
the default is returned (so with the default `0.0` an unparseable sensor
string is reported as zero, not as missing). -/
theorem safe_float_characterisation (v : PyVal) (d : ℚ) :
    (safe_float v d = Option.none ↔
      v = PyVal.none ∨ v = PyVal.str "" ∨
        ∃ s, v = PyVal.str s ∧ (strLower s = "nan" ∨ strLower s = "n/a")) ∧
    (∀ s, v = PyVal.str s → s ≠ "" → strLower s ≠ "nan" → strLower s ≠ "n/a" →
      pyFloat? s = Option.none → safe_float v d = some d) := by
  constructor
  · match v with
    | PyVal.none => simp [safe_float]
    | PyVal.num q => simp [safe_float]
    | PyVal.str s =>
      simp only [safe_float]
      constructor
      · intro h
        split_ifs at h with hc
        · simp only [Bool.or_eq_true, beq_iff_eq] at hc
          rcases hc with (hc | hc) | hc
        
          · exact Or.inr (Or.inl (by rw [hc]))
          · exact Or.inr (Or.inr ⟨s, rfl, Or.inl hc⟩)
          · exact Or.inr (Or.inr ⟨s, rfl, Or.inr hc⟩)
        · split at h
          · exact absurd h (by simp)
          · exact absurd h (by simp)
      · intro h
        rcases h with h | h | ⟨s', hs', hlow⟩
        · exact absurd h (by simp)
        · rw [PyVal.str.injEq] at h
          subst h
          simp
        · rw [PyVal.str.injEq] at hs'
          subst hs'
          have : (s == "" || strLower s == "nan" || strLower s == "n/a") = true := by
            rcases hlow with h1 | h1 <;> simp [h1]
          rw [if_pos this]
  · intro s hs h0 h1 h2 h3
    subst hs
    simp only [safe_float]
    have hc : (s == "" || strLower s == "nan" || strLower s == "n/a") = false := by
      simp [h0, h1, h2]
    rw [if_neg (by simp [hc]), h3]

/-- Witness for C9: `None` input gives `None`; an unparseable string gives
the default. -/
theorem safe_float_characterisation_witness :
    safe_float PyVal.none 0 = Option.none ∧
    safe_float (PyVal.str "abc") 0 = some 0 :=
  ⟨(safe_float_characterisation PyVal.none 0).1.mpr (Or.inl rfl),
   (safe_float_characterisation (PyVal.str "abc") 0).2 "abc" rfl
     (by decide) (by decide) (by decide) (by decide)⟩

/-! ## The worker loop: cleanup and sentinel-gated emission -/

theorem loopGo_no_portClosed : ∀ (iters : List (Bool × ReadOutcome)) (buf : List String),
    WEvent.connLost Reason.portClosed ∉ loopGo iters buf := by
  intro iters
  induction iters with
  | nil => intro buf; simp [loopGo]
  | cons it rest ih =>
    intro buf
    obtain ⟨flag, rd⟩ := it
    simp only [loopGo]
    cases flag with
    | false => simp
    | true =>
      simp only [Bool.not_true, Bool.false_eq_true, if_false]
      cases rd with
      | empty => exact ih buf
      | readErr e => simp
      | thrErr e => simp
      | data s =>
        simp only
        split_ifs with hs hd hpe
        · intro hmem
          rcases List.mem_append.mp hmem with h0 | h0
          · simp at h0
          · exact ih [] h0
        · intro hmem
          rcases List.mem_append.mp hmem with h0 | h0
          · simp at h0
          · exact ih [] h0
        · intro hmem
          rcases List.mem_append.mp hmem with h0 | h0
          · simp at h0
          · exact ih [] h0
        · exact ih buf
        · exact ih (buf ++ [strStrip s])

theorem loopGo_rows_nil : ∀ (iters : List (Bool × ReadOutcome)) (buf : List String),
    (∀ b s, (b, ReadOutcome.data s) ∈ iters →
      containsSeq sentinel.data (strStrip s).data = false) →
    rowsOf (loopGo iters buf) = [] := by
  intro iters
  induction iters with
  | nil => intro buf _; simp [loopGo, rowsOf]
  | cons it rest ih =>
    intro buf hno
    obtain ⟨flag, rd⟩ := it
    have hrest : ∀ b s, (b, ReadOutcome.data s) ∈ rest →
        containsSeq sentinel.data (strStrip s).data = false := by
      intro b s hmem
      exact hno b s (List.mem_cons_of_mem _ hmem)
    simp only [loopGo]
    cases flag with
    | false => simp [rowsOf]
    | true =>
      simp only [Bool.not_true, Bool.false_eq_true, if_false]
      cases rd with
      | empty => exact ih buf hrest
      | readErr e => simp [rowsOf]
      | thrErr e => simp [rowsOf]
      | data s =>
        simp only
        have hsent : containsSeq sentinel.data (strStrip s).data = false :=
          hno true s (by simp)
        rw [if_neg (by simp [hsent])]
        split_ifs with hd
        · exact ih buf hrest
        · exact ih (buf ++ [strStrip s]) hrest

theorem loopGo_rows_ne_nil : ∀ (iters : List (Bool × ReadOutcome)) (buf : List String)
    (r : List (String × ℚ)), WEvent.row r ∈ loopGo iters buf → r ≠ [] := by
  intro iters
  induction iters with
  | nil => intro buf r h; exact absurd h (by simp [loopGo])
  | cons it rest ih =>
    intro buf r h
    obtain ⟨flag, rd⟩ := it
    simp only [loopGo] at h
    cases flag with
    | false => exact absurd h (by simp at h)
    | true =>
      simp only [Bool.not_true, Bool.false_eq_true, if_false] at h
      cases rd with
      | empty => exact ih buf r h
      | readErr e => exact absurd h (by simp)
      | thrErr e => exact absurd h (by simp)
      | data s =>
        simp only at h
        split_ifs at h with hs hd hpe
        · rw [List.nil_append] at h
          exact ih [] r h
        · rw [List.nil_append] at h
          exact ih [] r h
        · rcases List.mem_append.mp h with h0 | h0
          · rw [List.mem_singleton] at h0
            injection h0 with h0'
            subst h0'
            intro hnil
            rw [hnil] at hpe
            exact hpe rfl
          · exact ih [] r h0
        · exact ih buf r h
        · exact ih (buf ++ [strStrip s]) r h

/-! ## C3: worker cleanup and final signal -/

/-- **C3 (amended).**  When the open succeeds, every exit of the read loop
(normal stop, read error, unexpected exception) reaches the `finally`
block: the device handle is closed exactly once and the final emitted
event — occurring exactly once — is the `connection_lost` signal whose
payload string is `"PORT CLOSED"`.  When the open fails, the worker emits
only the `OPEN FAIL` connection-lost signal and returns without closing
and without any `PORT CLOSED` signal. -/
theorem runWorker_cleanup (port : String) (iters : List (Bool × ReadOutcome)) (e : String) :
    (runWorker port OpenOutcome.ok iters).2 = 1 ∧
    (runWorker port OpenOutcome.ok iters).1.getLast? =
      some (WEvent.connLost Reason.portClosed) ∧
    (runWorker port OpenOutcome.ok iters).1.count (WEvent.connLost Reason.portClosed) = 1 ∧
    runWorker port (OpenOutcome.fail e) iters = ([WEvent.connLost (Reason.openFail e)], 0) ∧
    reasonString Reason.portClosed = "PORT CLOSED" := by
  refine ⟨rfl, ?_, ?_, rfl, rfl⟩
  · exact List.getLast?_concat _
  · show (([WEvent.connected port] ++ loopGo iters []) ++
      [WEvent.connLost Reason.portClosed]).count (WEvent.connLost Reason.portClosed) = 1
    rw [List.count_append, List.count_append]
    have h0 : (loopGo iters []).count (WEvent.connLost Reason.portClosed) = 0 :=
      List.count_eq_zero.mpr (loopGo_no_portClosed iters [])
    rw [h0]
    simp

/-- **C3 counterexample.**  On the open-failure exit path the claim fails:
no `PORT CLOSED` connection-lost signal is emitted and the handle is never
closed — the worker returns before the `try`/`finally` block. -/
theorem runWorker_openfail_counterexample :
    runWorker "COM1" (OpenOutcome.fail "boom") [] =
      ([WEvent.connLost (Reason.openFail "boom")], 0) ∧
    (runWorker "COM1" (OpenOutcome.fail "boom") []).1.count
      (WEvent.connLost Reason.portClosed) = 0 ∧
    (runWorker "COM1" (OpenOutcome.fail "boom") []).2 = 0 ∧
    reasonString (Reason.openFail "boom") = "OPEN FAIL: boom" := by decide

/-! ## C4: sentinel-gated emission, no empty records -/

/-- **C4.**  For all input traces: if no data line contains the sentinel
phrase, the worker emits no record at all; every record it ever emits is
non-empty (a frame parsing to an empty record yields no `rowReady`
emission); and a sentinel line arriving while the accumulated buffer is
empty emits no record — the worker's events on such a trace are exactly
those of the trace without that sentinel iteration (the buffer is empty
at loop entry and immediately after any sentinel). -/
theorem sentinel_gated_emission (port : String) (iters : List (Bool × ReadOutcome)) :
    ((∀ b s, (b, ReadOutcome.data s) ∈ iters →
        containsSeq sentinel.data (strStrip s).data = false) →
      rowsOf (runWorker port OpenOutcome.ok iters).1 = []) ∧
    (∀ r, WEvent.row r ∈ (runWorker port OpenOutcome.ok iters).1 → r ≠ []) ∧
    (∀ s, containsSeq sentinel.data (strStrip s).data = true →
      (runWorker port OpenOutcome.ok ((true, ReadOutcome.data s) :: iters)).1 =
        (runWorker port OpenOutcome.ok iters).1) := by
  refine ⟨?_, ?_, ?_⟩
  · intro hno
    show rowsOf (([WEvent.connected port] ++ loopGo iters []) ++
      [WEvent.connLost Reason.portClosed]) = []
    rw [rowsOf, List.filterMap_append, List.filterMap_append]
    have h0 := loopGo_rows_nil iters [] hno
    rw [rowsOf] at h0
    rw [h0]
    simp [rowsOf]
  · intro r hmem
    rcases List.mem_append.mp hmem with h0 | h0
    · rcases List.mem_append.mp h0 with h1 | h1
      · simp at h1
      · exact loopGo_rows_ne_nil iters [] r h1
    · simp at h0
  · intro s hs
    show [WEvent.connected port] ++ loopGo ((true, ReadOutcome.data s) :: iters) [] ++
        [WEvent.connLost Reason.portClosed] =
      [WEvent.connected port] ++ loopGo iters [] ++ [WEvent.connLost Reason.portClosed]
    have hl : loopGo ((true, ReadOutcome.data s) :: iters) [] = loopGo iters [] := by
      simp only [loopGo, Bool.not_true, Bool.false_eq_true, if_false]
      rw [if_pos hs]
      simp
    rw [hl]

/-- Witness for C4: a sentinel-free trace emits no record; a record emitted
by a complete frame is non-empty; a lone sentinel line (empty buffer)
leaves the event stream unchanged. -/
theorem sentinel_gated_emission_witness :
    rowsOf (runWorker "COM1" OpenOutcome.ok
      [(true, ReadOutcome.data "BME: T=1 H=2 P=3")]).1 = [] ∧
    ([("bme_temp", (950 : ℚ)), ("bme_h", 45), ("bme_p", 1000)] :
      List (String × ℚ)) ≠ [] ∧
    (runWorker "COM1" OpenOutcome.ok
      [(true, ReadOutcome.data "Data transmitted via XBee")]).1 =
      (runWorker "COM1" OpenOutcome.ok []).1 :=
  ⟨(sentinel_gated_emission "COM1" [(true, ReadOutcome.data "BME: T=1 H=2 P=3")]).1
    (by
      intro b s hmem
      simp only [List.mem_singleton, Prod.mk.injEq] at hmem
      obtain ⟨-, h2⟩ := hmem
      injection h2 with h3
      subst h3
      decide),
   (sentinel_gated_emission "COM1"
      [(true, ReadOutcome.data "BME: T=950 H=45 P=1000"),
       (true, ReadOutcome.data "Data transmitted via XBee")]).2.1
     [("bme_temp", (950 : ℚ)), ("bme_h", 45), ("bme_p", 1000)] (by decide),
   (sentinel_gated_emission "COM1" []).2.2 "Data transmitted via XBee" (by decide)⟩

/-! ## C7: fan-out dispatch isolation -/

theorem dispatchSeq_delivered (subs : List SubBehavior) :
    (dispatchSeq subs).1 =
      List.range (min ((subs.findIdx (· == SubBehavior.throws)) + 1) subs.length) := by
  induction subs with
  | nil => rfl
  | cons sb rest ih =>
    cases sb with
    | ok =>
      simp only [dispatchSeq, ih, List.findIdx_cons, List.length_cons]
      rw [show (SubBehavior.ok == SubBehavior.throws) = false from rfl]
      simp only [cond_false]
      have hmin : ((List.findIdx (fun x => x == SubBehavior.throws) rest + 1) + 1) ⊓
          (rest.length + 1) =
          ((List.findIdx (fun x => x == SubBehavior.throws) rest + 1) ⊓ rest.length) + 1 := by
        omega
      rw [hmin, List.range_succ_eq_map]
    | throws =>
      simp only [dispatchSeq, List.findIdx_cons, List.length_cons]
      rw [show (SubBehavior.throws == SubBehavior.throws) = true from rfl]
      simp only [cond_true]
      have h1 : (0 + 1) ⊓ (rest.length + 1) = 1 := by omega
      rw [h1]
      rfl

/-- **C7 (amended).**  A raising subscriber never stops the producer (the
single `try`/`except` swallows the exception, second component `false`),
and the subscribers that receive the record are exactly those up to and
including the first raiser — subscribers ordered after the first raiser
do not receive it. -/
theorem forwardRow_characterisation (subs : List SubBehavior) :
    forwardRow subs =
      (List.range (min ((subs.findIdx (· == SubBehavior.throws)) + 1) subs.length),
        false) := by
  rw [forwardRow, dispatchSeq_delivered]

/-- **C7 counterexample.**  With two subscribers, the first of which always
throws, the well-behaved subscriber (index 1) does not receive the record:
the single `try` around the whole dispatch sequence aborts the remaining
calls (though the exception is swallowed and the worker continues). -/
theorem forwardRow_counterexample :
    forwardRow [SubBehavior.throws, SubBehavior.ok] = ([0], false) ∧
    1 ∉ (forwardRow [SubBehavior.throws, SubBehavior.ok]).1 := by decide

/-! ## C8: the clear operation on the log store -/

/-- **C8 (amended).**  `clear_logs` truncates the store to the header row
and then logs an INFO "Logs cleared" event, so the resulting file is the
header followed by exactly one data row — never the bare header. -/
theorem clear_logs_characterisation (st : Option (List (List String))) (ts : String) :
    clear_logs st ts =
      some [headerRow,
        [ts, "INFO", "LogTab", "Logs cleared", "All previous logs have been removed",
         "0", ""]] := by
  cases st with
  | none => rfl
  | some f => rfl

/-- **C8 counterexample.**  After a clear, the persisted file does not
contain only the header row: a "Logs cleared" INFO row follows it. -/
theorem clear_logs_counterexample :
    clear_logs (some [headerRow, ["t0", "ERROR", "X", "m", "d", "0", ""]]) "t1" =
      some [headerRow,
        ["t1", "INFO", "LogTab", "Logs cleared", "All previous logs have been removed",
         "0", ""]] ∧
    clear_logs (some [headerRow, ["t0", "ERROR", "X", "m", "d", "0", ""]]) "t1" ≠
      some [headerRow] := by decide

/-! ## C2: the two redundancy resolvers -/

/-- **C2 (amended).**  The CSV redundancy-repair loop substitutes the
redundant value exactly when the primary cell is NaN/absent or exactly
zero (and keeps a nonzero primary); the live telemetry panel substitutes
only when the primary is `None` or one of the strings `""`, `"-"`,
`"nan"` and the fallback is present — a primary equal to the number `0`
is kept there, not replaced. -/
theorem redundancy_resolvers (p r : Option ℚ) (w : PyVal) :
    ((p = Option.none ∨ p = some 0) → redundancyRepair p r = r) ∧
    (∀ q : ℚ, p = some q → q ≠ 0 → redundancyRepair p r = some q) ∧
    ((∀ v, (v = PyVal.none ∨ v = PyVal.str "" ∨ v = PyVal.str "-" ∨ v = PyVal.str "nan") →
      w ≠ PyVal.none → resolveDisplayValue v w = w)) ∧
    (∀ q : ℚ, resolveDisplayValue (PyVal.num q) w = PyVal.num q) := by
  refine ⟨?_, ?_, ?_, ?_⟩
  · intro h
    rcases h with h | h <;> subst h <;> simp [redundancyRepair]
  · intro q hq hq0
    subst hq
    simp [redundancyRepair, hq0]
  · intro v hv hw
    rw [resolveDisplayValue, if_pos ⟨hv, hw⟩]
  · intro q
    rw [resolveDisplayValue, if_neg]
    rintro ⟨h1, -⟩
    rcases h1 with h | h | h | h <;> exact absurd h (by simp)

/-- Witness for C2 (amended): zero/NaN primaries fall back in the repair
loop; a `"nan"` string falls back in the panel; a numeric `0` does not. -/
theorem redundancy_resolvers_witness :
    redundancyRepair (some 0) (some 5) = some 5 ∧
    redundancyRepair Option.none (some 7) = some 7 ∧
    resolveDisplayValue (PyVal.str "nan") (PyVal.num 7) = PyVal.num 7 ∧
    resolveDisplayValue (PyVal.num 0) (PyVal.num 5) = PyVal.num 0 :=
  ⟨(redundancy_resolvers (some 0) (some 5) PyVal.none).1 (Or.inr rfl),
   (redundancy_resolvers Option.none (some 7) PyVal.none).1 (Or.inl rfl),
   (redundancy_resolvers Option.none Option.none (PyVal.num 7)).2.2.1
     (PyVal.str "nan") (Or.inr (Or.inr (Or.inr rfl))) (by simp),
   (redundancy_resolvers Option.none Option.none (PyVal.num 5)).2.2.2 0⟩

/-- **C2 counterexample.**  The telemetry panel's resolver does not follow
the zero-triggers-fallback policy: with primary `0` and redundant `5` it
returns the primary `0`, not the redundant value. -/
theorem resolveDisplayValue_zero_counterexample :
    resolveDisplayValue (PyVal.num 0) (PyVal.num 5) = PyVal.num 0 ∧
    PyVal.num 0 ≠ PyVal.num 5 := by decide

/-! ## C6: the statistical anomaly detector on constant windows -/

/-- **C6 (amended).**  The detector never raises an anomaly when the
rolling window *after inserting the new value* has zero variance (the
`std == 0` guard); in particular a new value equal to the window's
constant raises nothing.  (The new value is appended before σ is
computed, so a window that was constant *before* a far-away value arrives
does not fall under this guard — see the counterexample.) -/
theorem update_and_check_zero_variance (buf : List ℚ) (v : ℚ)
    (h : listVar (pushWin 20 buf v) = 0) :
    (update_and_check true buf (some v)).2 = Option.none := by
  rw [update_and_check]
  simp only [Bool.not_true, Bool.false_eq_true, if_false]
  split_ifs with h1 <;> rfl

/-- Witness for C6 (amended): inserting the constant itself into a
constant window of length 4 gives a 5-sample zero-variance window and no
anomaly. -/
theorem update_and_check_zero_variance_witness :
    listVar (pushWin 20 [3, 3, 3, 3] 3) = 0 ∧
    (update_and_check true [3, 3, 3, 3] (some 3)).2 = Option.none := by
  have h : listVar (pushWin 20 [3, 3, 3, 3] 3) = 0 := by
    norm_num [pushWin, listVar, listMean]
  exact ⟨h, update_and_check_zero_variance [3, 3, 3, 3] 3 h⟩

/-- **C6 counterexample.**  A window that is constant *before* the new
value arrives does not protect against anomalies: the far-away value is
appended before σ is computed, so the post-insertion window has nonzero
variance and the detector raises — here seven `10`s followed by `1000`. -/
theorem update_and_check_constant_window_counterexample :
    (([(10 : ℚ), 10, 10, 10, 10, 10, 10].all (· == 10)) = true) ∧
    (update_and_check true [10, 10, 10, 10, 10, 10, 10] (some 1000)).2.isSome = true := by
  constructor
  · decide
  · norm_num [update_and_check, pushWin, listMean, listVar]

/-! ## C5: classification of the static range check -/

set_option maxHeartbeats 1000000 in
/-- **C5 (amended).**  On a single-channel record the static check
classifies as follows (event severities shown; `safe_float` of a number is
the number itself).  Only TEMP and PRES follow the claimed
most-severe-first order (beyond critical → CRITICAL, beyond normal within
critical → WARNING, within normal → nothing) for nonzero values; the
other families deviate: (a) a value equal to `0` short-circuits the
`or`-fallback to the alternate key and yields no event at all (visible
for PRES and VOLT, where `0` is out of range yet silent), (b) the HUM
family emits a single ERROR for any out-of-range value — never CRITICAL,
even beyond its critical bound — (c) the ALT family emits ERROR (not
CRITICAL) above `critical_max`, nothing between `max` and `critical_max`,
and WARNING only below `min`, (d) the VOLT family emits CRITICAL below
`critical_min` or above `critical_max` and WARNING below `min`, but
nothing in `(max, critical_max]` (the code has no `volt > max` branch),
and (e) the CURR family emits CRITICAL above `critical_max` and WARNING
above `max`, but nothing below `min` (no `curr < min` branch). -/
theorem check_thresholds_classification (v : ℚ) :
    ((check_telemetry_thresholds [("TEMP", PyVal.num v)]).map (·.1) =
      (if v > 100 then ["CRITICAL"] else if v > 85 then ["WARNING"]
       else if v < -10 then ["WARNING"] else [])) ∧
    ((check_telemetry_thresholds [("PRES", PyVal.num v)]).map (·.1) =
      (if v = 0 then [] else if v > 1200 ∨ v < 200 then ["CRITICAL"]
       else if v > 1100 ∨ v < 300 then ["WARNING"] else [])) ∧
    ((check_telemetry_thresholds [("HUM", PyVal.num v)]).map (·.1) =
      (if v > 100 ∨ v < 0 then ["ERROR"] else [])) ∧
    ((check_telemetry_thresholds [("ALT", PyVal.num v)]).map (·.1) =
      (if v > 100000 then ["ERROR"] else if v < -500 then ["WARNING"] else [])) ∧
    ((check_telemetry_thresholds [("VOLT", PyVal.num v)]).map (·.1) =
      (if v = 0 then [] else if v < 5/2 then ["CRITICAL"] else if v > 50 then ["CRITICAL"]
       else if v < 3 then ["WARNING"] else [])) ∧
    ((check_telemetry_thresholds [("CURR", PyVal.num v)]).map (·.1) =
      (if v > 15000 then ["CRITICAL"] else if v > 10000 then ["WARNING"] else [])) := by
  by_cases hv : v = 0
  · subst hv
    refine ⟨by decide, by decide, by decide, by decide, by decide, by decide⟩
  · refine ⟨?_, ?_, ?_, ?_, ?_, ?_⟩ <;>
      simp [check_telemetry_thresholds, checkTemp, checkHum, checkPres, checkVolt,
        checkCurr, checkAlt, checkAcc, checkGps, nanScan, hasKey, dget, dgetD,
        pyOr, truthy, safe_float, THR_TEMP, THR_HUM, THR_PRES, THR_VOLT, THR_CURR,
        THR_ALT, PyNum.toQ, hv, apply_ite (List.map (Prod.fst))]

/-- **C5 counterexample.**  The claimed most-severe-first classification
fails on the code: humidity `150` is beyond HUM's critical bound (`100`)
yet yields an ERROR (not CRITICAL) event; altitude `60000` is beyond
ALT's normal bound (`50000`) and within its critical bound (`100000`)
yet yields no event at all; voltage `0` is below VOLT's critical minimum
(`2.5`) yet yields no event (the falsy-zero key fallback); voltage `45`
is beyond VOLT's normal max (`42`) and within its critical bound (`50`)
yet yields no event (no `volt > max` branch); and current `-2000` is
below CURR's min (`-1000`) yet yields no event (no `curr < min`
branch). -/
theorem check_thresholds_counterexample :
    check_telemetry_thresholds [("HUM", PyVal.num 150)] =
      [("ERROR", "BME680", "Humidity out of range: 150.0%", "Valid 0-100%")] ∧
    check_telemetry_thresholds [("ALT", PyVal.num 60000)] = [] ∧
    check_telemetry_thresholds [("VOLT", PyVal.num 0)] = [] ∧
    check_telemetry_thresholds [("VOLT", PyVal.num 45)] = [] ∧
    check_telemetry_thresholds [("CURR", PyVal.num (-2000))] = [] := by
  refine ⟨by decide, by decide, by decide, ?_, by decide⟩
  simp [check_telemetry_thresholds, checkTemp, checkHum, checkPres, checkVolt,
    checkCurr, checkAlt, checkAcc, checkGps, nanScan, hasKey, dget, dgetD,
    pyOr, truthy, safe_float, THR_TEMP, THR_HUM, THR_PRES, THR_VOLT, THR_CURR,
    THR_ALT, THR_ACC, PyNum.toQ, show ¬(45 : ℚ) = 0 from by norm_num]
  norm_num

/-! ## C1: the BME frame scenario -/

/-- **C1 counterexample.**  Feeding `BME: T=950 H=45 P=1000` and a sentinel
line does produce a record with `bme_temp = 950`; but passing *that
record* to the static-threshold check produces no event at all — the
check reads the keys `TEMP`/`temperature` (and friends), not the parser's
`bme_*` keys, so there is no CRITICAL event, let alone exactly one. -/
theorem bme_scenario_counterexample :
    rowsOf (runWorker "COM1" OpenOutcome.ok
      [(true, ReadOutcome.data "BME: T=950 H=45 P=1000"),
       (true, ReadOutcome.data "Data transmitted via XBee")]).1 =
      [[("bme_temp", 950), ("bme_h", 45), ("bme_p", 1000)]] ∧
    check_telemetry_thresholds
      [("bme_temp", PyVal.num 950), ("bme_h", PyVal.num 45), ("bme_p", PyVal.num 1000)] =
      [] := by
  refine ⟨by decide, by decide⟩

/-- **C1 (amended).**  The frame `BME: T=950 H=45 P=1000` followed by the
sentinel yields exactly one record, with `bme_temp = 950`; and the
static-threshold check fed the temperature under its expected key
(`TEMP`) produces exactly one CRITICAL event whose message contains
`"950"` (the TEMP table's `critical_max` is `100`). -/
theorem bme_scenario_amended :
    rowsOf (runWorker "COM1" OpenOutcome.ok
      [(true, ReadOutcome.data "BME: T=950 H=45 P=1000"),
       (true, ReadOutcome.data "Data transmitted via XBee")]).1 =
      [[("bme_temp", 950), ("bme_h", 45), ("bme_p", 1000)]] ∧
    (parse_frame ["BME: T=950 H=45 P=1000"]).lookup "bme_temp" = some 950 ∧
    check_telemetry_thresholds [("TEMP", PyVal.num 950)] =
      [("CRITICAL", "BME680", "Temperature critical: 950.0Â°C", "Exceeded 100Â°C")] ∧
    containsSeq "950".data "Temperature critical: 950.0Â°C".data = true := by
  refine ⟨by decide, by decide, by decide, by decide⟩
